import Mathlib

/-!
Shallow embedding of the async-task-orchestrator core (Go sources under
`internal/`) together with proofs about the behaviours its specification
describes.  Each definition is translated from a named Go function; machine
integers are modelled as `Int` (ids and counters stay far from the 64-bit
range on every path considered), Lua/float token counts as `ℚ`, fallible
calls as `Option`/`Except`, and infrastructure outcomes (transaction
commits, broker publishes) as explicit boolean environment fields.
Timestamps are omitted: no statement below concerns `created_at`/`updated_at`.
-/

namespace TaskOrch

/-- Task row, from `internal/task/model.go` (`Task`).  `Status` is a plain
string in the Go code, so it is a `String` here; the four values used are
"PENDING", "PROCESSING", "SUCCESS", "FAILED". -/
structure Task where
  id : Int
  userID : Int
  taskType : String
  status : String
  resultFile : Option String
  errorMessage : Option String
deriving DecidableEq, Repr

/-- Queue message payload, from `internal/task/model.go` (`TaskPayload`). -/
structure TaskPayload where
  id : Int
  userID : Int
  taskType : String
deriving DecidableEq, Repr

/-! ### Repository (`internal/task/repository.go` / the `int`-id variant
of `TaskRepository`, whose SQL is identical for the update statements).
The table is modelled as a list of rows; a SQL `UPDATE ... WHERE id = $1`
maps every matching row and leaves the others untouched.  None of the
update statements constrains the current `status`. -/

/-- `TaskRepository.MarkProcessing`: `UPDATE tasks SET status = 'PROCESSING' WHERE id = $1`. -/
def markProcessing (rows : List Task) (id : Int) : List Task :=
  rows.map fun t => if t.id = id then { t with status := "PROCESSING" } else t

/-- `TaskRepository.MarkSuccess`: `UPDATE tasks SET status = 'SUCCESS', result_file = $1 WHERE id = $2`. -/
def markSuccess (rows : List Task) (id : Int) (resultFile : String) : List Task :=
  rows.map fun t =>
    if t.id = id then { t with status := "SUCCESS", resultFile := some resultFile } else t

/-- `TaskRepository.MarkFailed`: `UPDATE tasks SET status = 'FAILED', error_message = $1 WHERE id = $2`. -/
def markFailed (rows : List Task) (id : Int) (errorMessage : String) : List Task :=
  rows.map fun t =>
    if t.id = id then { t with status := "FAILED", errorMessage := some errorMessage } else t

/-- `TaskRepository.GetByID`: `SELECT ... WHERE id = $1` (first matching row or not-found). -/
def getByID (rows : List Task) (id : Int) : Option Task :=
  rows.find? fun t => t.id = id

/-- `TaskRepository.GetByUserID`: `SELECT ... WHERE user_id = $1`. -/
def getByUserID (rows : List Task) (userID : Int) : List Task :=
  rows.filter fun t => t.userID = userID

/-! ### Enqueue path (`internal/task/service.go`, `TaskService.CreateTask`). -/

/-- Errors `TaskService.CreateTask` can return. -/
inductive CreateErr where
  | invalidPayload
  | dbError
  | channelError
  | publishError
deriving DecidableEq, Repr

/-- Broker-side outcomes for the enqueue path: whether opening a channel
and publishing succeed. -/
structure BrokerEnv where
  channelOk : Bool
  publishOk : Bool
deriving DecidableEq, Repr

/-- Observable result of one `CreateTask` call: the committed store, the
message (if any) that reached the broker, and the error returned to the
caller (`none` = Go `nil`). -/
structure CreateOutcome where
  rows : List Task
  published : Option TaskPayload
  err : Option CreateErr
deriving DecidableEq, Repr

/-- `TaskService.CreateTask` (`internal/task/service.go`).  The Go code
validates the payload, runs `utils.WithTransaction` around `repo.Create`
alone — so the insert transaction COMMITS when `WithTransaction` returns —
and only then opens a channel and publishes.  A publish failure is
returned to the caller but nothing undoes the already-committed row.
`insertOk` models the insert+commit succeeding, `newID` the id generated
by `RETURNING id`. -/
def serviceCreateTask (env : BrokerEnv) (insertOk : Bool) (newID : Int)
    (rows : List Task) (t : Task) : CreateOutcome :=
  if t.userID = 0 ∨ t.taskType = "" then
    ⟨rows, none, some .invalidPayload⟩
  else if insertOk = false then
    ⟨rows, none, some .dbError⟩
  else
    let rows := rows ++ [{ t with id := newID }]
    if env.channelOk = false then
      ⟨rows, none, some .channelError⟩
    else if env.publishOk = false then
      ⟨rows, none, some .publishError⟩
    else
      ⟨rows, some ⟨newID, t.userID, t.taskType⟩, none⟩

/-! ### HTTP layer (`internal/task/controller.go`). -/

/-- HTTP responses the task controller produces. -/
inductive HttpResponse where
  | okTask (body : Task)
  | okTasks (tasks : List Task) (count : Nat)
  | badRequest (msg : String)
  | unauthorized (msg : String)
  | forbidden (msg : String)
  | notFound (msg : String)
  | serverError (msg : String)
deriving DecidableEq, Repr

/-- Digit run of `strconv.Atoi`: all characters must be decimal digits and
at least one must be present. -/
def parseDecDigits (cs : List Char) : Option Nat :=
  match cs with
  | [] => none
  | _ =>
    cs.foldl
      (fun acc c =>
        match acc with
        | none => none
        | some n => if c.isDigit then some (n * 10 + (c.toNat - '0'.toNat)) else none)
      (some 0)

/-- Go `strconv.Atoi` (optional sign, then digits; anything else errors).
Overflow is not modelled: every input considered is tiny. -/
def atoi (s : String) : Option Int :=
  match s.data with
  | '+' :: rest => (parseDecDigits rest).map Int.ofNat
  | '-' :: rest => (parseDecDigits rest).map fun n => -(Int.ofNat n)
  | l => (parseDecDigits l).map Int.ofNat

/-- `TaskService.GetTask` (`internal/task/service.go`): consult the cache
first; on a hit return the cached task, on a miss read the store (the
subsequent cache population does not change the response). -/
def serviceGetTask (cacheEntry : Option Task) (rows : List Task) (taskID : Int) : Option Task :=
  match cacheEntry with
  | some t => some t
  | none => getByID rows taskID

/-- `TaskService.GetTasks` (`internal/task/service.go`): cache-through list
of the given user's tasks. -/
def serviceGetTasks (cacheEntry : Option (List Task)) (rows : List Task)
    (userID : Int) : List Task :=
  match cacheEntry with
  | some ts => ts
  | none => getByUserID rows userID

/-- `TaskController.GetTask` (`internal/task/controller.go` lines 83-106).
The handler parses the `:id` parameter, fetches the task, and on success
returns the full task body.  The authenticated caller's identity
(`callerID`, set into the context by `auth.AuthMiddleware`) is NEVER read
by this handler: there is no ownership comparison in the source. -/
def getTaskHandler (callerID : Option Int) (idParam : String)
    (cacheEntry : Option Task) (rows : List Task) : HttpResponse :=
  match atoi idParam with
  | none => .badRequest "Invalid task ID"
  | some id =>
    match serviceGetTask cacheEntry rows id with
    | none => .notFound "Task not found"
    | some t => .okTask t

/-- `TaskController.GetTasksByUser` (`internal/task/controller.go` lines
109-126), registered as `GET /api/v1/users/:user_id/tasks` by
`SetupRoutes`.  The owner whose tasks are listed is taken from the
`:user_id` URL parameter; the token identity (`callerID`) is never read. -/
def getTasksByUserHandler (callerID : Option Int) (userIdParam : String)
    (cacheEntry : Option (List Task)) (rows : List Task) : HttpResponse :=
  match atoi userIdParam with
  | none => .badRequest "Invalid user ID"
  | some uid =>
    let tasks := serviceGetTasks cacheEntry rows uid
    .okTasks tasks tasks.length

/-! ### Worker runtime (`internal/worker/worker.go`). -/

/-- AMQP header values (`amqp.Table` entries) as far as the worker
distinguishes them: the Go code type-asserts to `int32`, so the only
relevant split is `int32` versus anything else. -/
inductive FieldValue where
  | int32 (n : Int)
  | int64 (n : Int)
  | str (s : String)
  | boolean (b : Bool)
deriving DecidableEq, Repr

/-- Header table lookup (first binding wins, as in a Go map where keys are
unique). -/
def headerLookup (h : List (String × FieldValue)) (k : String) : Option FieldValue :=
  (h.find? fun p => p.1 = k).map Prod.snd

/-- Go map assignment `headers[k] = v`: replace an existing binding or
append a new one. -/
def setHeader (h : List (String × FieldValue)) (k : String) (v : FieldValue) :
    List (String × FieldValue) :=
  if (h.find? fun p => p.1 = k).isSome then
    h.map fun p => if p.1 = k then (k, v) else p
  else
    h ++ [(k, v)]

/-- Message body as the worker sees it: `json.Unmarshal` either yields a
`TaskPayload` or fails.  The raw bytes are opaque; a body is republished
verbatim, so body identity is value identity here. -/
inductive Body where
  | json (p : TaskPayload)
  | malformed (raw : String)
deriving DecidableEq, Repr

/-- `json.Unmarshal(msg.Body, &payload)` outcome. -/
def decodeBody : Body → Option TaskPayload
  | .json p => some p
  | .malformed _ => none

/-- A delivery consumed from `task_queue`. -/
structure Delivery where
  body : Body
  headers : Option (List (String × FieldValue))
  routingKey : String
  contentType : String
deriving DecidableEq, Repr

/-- Retry-count extraction, `StartWorker` lines 79-84: start from 0; only
when headers exist, hold an `x-retry-count` entry, and its value
type-asserts to `int32` does the stored value replace 0. -/
def parseRetryCount (headers : Option (List (String × FieldValue))) : Int :=
  match headers with
  | none => 0
  | some h =>
    match headerLookup h "x-retry-count" with
    | some (.int32 n) => n
    | _ => 0

/-- Headers of the message rebuilt by `republishWithRetry`: the original
headers (or a fresh table when absent) with `x-retry-count` set to the new
count. -/
def republishHeaders (msgHeaders : Option (List (String × FieldValue)))
    (retryCount : Int) : List (String × FieldValue) :=
  setHeader (msgHeaders.getD []) "x-retry-count" (.int32 retryCount)

/-- `handleTask` (`internal/worker/handler.go`): the four known task types
succeed; anything else is the error "unknown task type: <type>".  Result
is `none` for success, `some msg` for failure, mirroring Go's `error`. -/
def handleTask (p : TaskPayload) : Option String :=
  match p.taskType with
  | "send_email" => none
  | "generate_report" => none
  | "resize_image" => none
  | "cleanup_temp" => none
  | _ => some ("unknown task type: " ++ p.taskType)

/-- Infrastructure outcomes for one delivery: whether each of the three
`utils.WithTransaction` calls commits (a failure rolls every change of
that transaction back) and whether `republishWithRetry`'s publish
succeeds. -/
structure WorkerEnv where
  tx1Ok : Bool
  tx2Ok : Bool
  tx3Ok : Bool
  publishOk : Bool
deriving DecidableEq, Repr

/-- Broker acknowledgements the loop can issue for the delivery. -/
inductive AckAction where
  | ack
  | nackRequeue
  | nackDrop
deriving DecidableEq, Repr

/-- A message sent back to the broker by `republishWithRetry`. -/
structure Published where
  body : Body
  headers : List (String × FieldValue)
  routingKey : String
  contentType : String
deriving DecidableEq, Repr

/-- Observable effect of processing one delivery: committed store,
acknowledgement, republished message (if any), and whether the task
handler was invoked. -/
structure StepResult where
  rows : List Task
  ack : AckAction
  published : Option Published
  handlerRan : Bool
deriving DecidableEq, Repr

/-- One iteration of the consume loop in `StartWorker`
(`internal/worker/worker.go` lines 69-156):
parse the body (malformed ⇒ drop); read the retry count; tx₁ marks the row
PROCESSING (commit failure ⇒ negative-ack with requeue); run the handler
outside any transaction; tx₂ marks SUCCESS or FAILED (commit ⇒ ack).
When tx₂ fails: `retry_count ≥ 3` ⇒ tx₃ marks FAILED "max retries
reached" (tx₃ failure only logs) and the delivery is negative-acked
without requeue; otherwise the body is republished with the incremented
header and the delivery acked, a publish failure degrading to a
negative-ack without requeue. -/
def processDelivery (env : WorkerEnv) (rows : List Task) (msg : Delivery) : StepResult :=
  match decodeBody msg.body with
  | none => ⟨rows, .nackDrop, none, false⟩
  | some payload =>
    let retryCount := parseRetryCount msg.headers
    if env.tx1Ok = false then
      ⟨rows, .nackRequeue, none, false⟩
    else
      let rows1 := markProcessing rows payload.id
      let taskErr := handleTask payload
      if env.tx2Ok then
        let rows2 :=
          match taskErr with
          | some e => markFailed rows1 payload.id e
          | none => markSuccess rows1 payload.id "result.txt"
        ⟨rows2, .ack, none, true⟩
      else if retryCount ≥ 3 then
        let rows3 := if env.tx3Ok then markFailed rows1 payload.id "max retries reached" else rows1
        ⟨rows3, .nackDrop, none, true⟩
      else if env.publishOk then
        ⟨rows1, .ack,
          some ⟨msg.body, republishHeaders msg.headers (retryCount + 1),
                msg.routingKey, msg.contentType⟩, true⟩
      else
        ⟨rows1, .nackDrop, none, true⟩

/-! ### Rate limiter (`internal/middleware/rate_limiter.lua` and
`rate_limiter.go`).  Lua numbers are modelled as `ℚ`; the epoch-second
timestamp is an `Int`. -/

/-- Stored bucket state for one identity (`HMGET key tokens last_refill`;
`none` models an absent key). -/
structure Bucket where
  tokens : ℚ
  lastRefill : Int
deriving DecidableEq, Repr

/-- Initialisation and refill sections of the Lua script: a missing bucket
starts at `(capacity, now)`; when time advanced, `delta * refill_rate`
tokens are added, clamped at `capacity`, and `last_refill` moves to
`now`. -/
def refillBucket (capacity refillRate : ℚ) (now : Int) (stored : Option Bucket) : Bucket :=
  let init : Bucket :=
    match stored with
    | none => ⟨capacity, now⟩
    | some b => b
  let delta : Int := now - init.lastRefill
  if 0 < delta then
    ⟨min capacity (init.tokens + (delta : ℚ) * refillRate), now⟩
  else
    init

/-- Whole Lua script evaluation (`rate_limiter.lua` lines 6-43): refill,
then take one token when at least one is available; the resulting state is
written back (`HMSET`) and the boolean is the script's return value. -/
def rateLimiterEval (capacity refillRate : ℚ) (now : Int) (stored : Option Bucket) :
    Bucket × Bool :=
  let b := refillBucket capacity refillRate now stored
  if 1 ≤ b.tokens then (⟨b.tokens - 1, b.lastRefill⟩, true) else (b, false)

/-- What the Gin middleware does with one request (`RateLimiterMiddleware`,
`internal/middleware/rate_limiter.go` lines 60-88): whether the handler
chain continues, the HTTP status written when aborting, and whether the
cache degradation was logged. -/
structure LimiterDecision where
  proceed : Bool
  status : Option Nat
  loggedDegradation : Bool
deriving DecidableEq, Repr

/-- `RateLimiterMiddleware` body: missing identity ⇒ 401; a script
evaluation error is logged and the request proceeds (fail-open); a `0`
result ⇒ 429; otherwise proceed. -/
def rateLimiterMiddleware (userCtx : Option Int) (evalResult : Except String Int) :
    LimiterDecision :=
  match userCtx with
  | none => ⟨false, some 401, false⟩
  | some _ =>
    match evalResult with
    | .error _ => ⟨true, none, true⟩
    | .ok allowed => if allowed = 0 then ⟨false, some 429, false⟩ else ⟨true, none, false⟩

/-! ### Credential service (`internal/auth/jwt.go`).  The HS256 signature
of the external JWT library is modelled as an unforgeable MAC: a signed
token carries its claims together with the secret that signed it, and
validation accepts exactly the tokens signed with the expected secret and
inside their validity window. -/

/-- Token `type` claim (`TokenType` in `jwt.go`). -/
inductive TokenType where
  | access
  | refresh
deriving DecidableEq, Repr

/-- The claim set `generateToken` embeds (`Claims` in `jwt.go`); times are
epoch seconds. -/
structure JwtClaims where
  userID : Int
  type : TokenType
  expiresAt : Int
  issuedAt : Int
  notBefore : Int
deriving DecidableEq, Repr

/-- A signed token (claims plus the signing secret, see the section
comment). -/
structure SignedToken where
  claims : JwtClaims
  signedWith : String
deriving DecidableEq, Repr

/-- Validation failures of `ValidateToken` / `RefreshTokenPair`. -/
inductive AuthErr where
  | invalidToken
  | expiredToken
  | notRefreshToken
deriving DecidableEq, Repr

/-- `generateToken` (`jwt.go`): claims carry the identity, the type and
the window `[now, now + durationSec]`. -/
def generateToken (userID : Int) (ty : TokenType) (durationSec : Int) (now : Int)
    (secret : String) : SignedToken :=
  ⟨⟨userID, ty, now + durationSec, now, now⟩, secret⟩

/-- `ValidateToken` (`jwt.go`): wrong key ⇒ invalid; past `exp` ⇒ expired;
before `nbf` ⇒ invalid; otherwise the claims are returned. -/
def validateToken (t : SignedToken) (secret : String) (now : Int) :
    Except AuthErr JwtClaims :=
  if t.signedWith ≠ secret then .error .invalidToken
  else if t.claims.expiresAt ≤ now then .error .expiredToken
  else if now < t.claims.notBefore then .error .invalidToken
  else .ok t.claims

/-- Token pair returned by `GenerateTokenPair`. -/
structure TokenPair where
  accessToken : SignedToken
  refreshToken : SignedToken
  expiresIn : Int
deriving DecidableEq, Repr

/-- `GenerateTokenPair` (`jwt.go` lines 41-59): a 15-minute access token
and a 7-day refresh token for the same identity, `expires_in` = 900 s. -/
def generateTokenPair (userID : Int) (secret : String) (now : Int) : TokenPair :=
  ⟨generateToken userID .access (15 * 60) now secret,
   generateToken userID .refresh (7 * 24 * 3600) now secret,
   900⟩

/-- `RefreshTokenPair` (`jwt.go` lines 123-138): validate the presented
token, insist on `type = refresh`, then rotate by issuing a whole new pair
for the same identity. -/
def refreshTokenPair (t : SignedToken) (secret : String) (now : Int) :
    Except AuthErr TokenPair :=
  match validateToken t secret now with
  | .error e => .error e
  | .ok claims =>
    if claims.type ≠ .refresh then .error .notRefreshToken
    else .ok (generateTokenPair claims.userID secret now)

/-- Identity a token decodes to under `secret` at time `now`, when it
validates at all. -/
def decodedUserID (t : SignedToken) (secret : String) (now : Int) : Option Int :=
  match validateToken t secret now with
  | .ok c => some c.userID
  | .error _ => none

/-! ### Concrete fixtures used by closed theorems. -/

/-- A task owned by user 2 in terminal state SUCCESS. -/
def taskOwnedBy2 : Task :=
  ⟨123, 2, "send_email", "SUCCESS", some "result.txt", none⟩

/-- A pending task owned by user 2. -/
def pendingTaskOf2 : Task :=
  ⟨9, 2, "generate_report", "PENDING", none, none⟩

/-- The request row the controller builds for `POST /tasks` by user 1
(status set to "PENDING", id filled in by the store). -/
def createReq : Task :=
  ⟨0, 1, "send_email", "PENDING", none, none⟩

/-- A well-formed delivery carrying retry count 3. -/
def deliveryRetry3 : Delivery :=
  ⟨.json ⟨5, 1, "send_email"⟩, some [("x-retry-count", .int32 3)],
   "task_queue", "application/json"⟩

/-- A well-formed first delivery (no headers). -/
def deliveryFresh : Delivery :=
  ⟨.json ⟨5, 1, "send_email"⟩, none, "task_queue", "application/json"⟩

/-- Signing secret used by concrete token examples. -/
def c8Secret : String := "shared-hmac-secret"

/-- A refresh token for identity 7 issued at time 0. -/
def c8RefreshTok : SignedToken := generateToken 7 .refresh (7 * 24 * 3600) 0 c8Secret

/-! ## Shared lemmas -/

/-- Helper: a row-targeted SQL update leaves the table unchanged when no
row carries the targeted id. -/
theorem map_update_eq_of_absent (rows : List Task) (id : Int) (f : Task → Task)
    (h : ∀ t ∈ rows, t.id ≠ id) :
    (rows.map fun t => if t.id = id then f t else t) = rows := by
  induction rows with
  | nil => rfl
  | cons a l ih =>
    have ha : a.id ≠ id := h a (List.mem_cons_self a l)
    simp only [List.map_cons, if_neg ha]
    rw [ih fun t ht => h t (List.mem_cons_of_mem a ht)]

/-- Helper: the updated image of a matching row belongs to the updated
table. -/
theorem mem_map_update_of_mem {rows : List Task} {id : Int} (f : Task → Task) {t : Task}
    (ht : t ∈ rows) (hid : t.id = id) :
    f t ∈ rows.map fun u => if u.id = id then f u else u := by
  have := List.mem_map_of_mem (f := fun u => if u.id = id then f u else u) ht
  simpa [hid] using this

/-- Helper: a token generated with the expected secret validates inside
its window and yields exactly its claim set. -/
theorem validateToken_generateToken (u : Int) (ty : TokenType) (d t0 nw : Int)
    (secret : String) (h1 : t0 ≤ nw) (h2 : nw < t0 + d) :
    validateToken (generateToken u ty d t0 secret) secret nw =
      .ok ⟨u, ty, t0 + d, t0, t0⟩ := by
  show (if secret ≠ secret then (.error .invalidToken : Except AuthErr JwtClaims)
      else if t0 + d ≤ nw then .error .expiredToken
      else if nw < t0 then .error .invalidToken
      else .ok ⟨u, ty, t0 + d, t0, t0⟩) = .ok ⟨u, ty, t0 + d, t0, t0⟩
  rw [if_neg (by simp), if_neg (by omega), if_neg (by omega)]

/-- Helper: the decoded identity of a generated token inside its window is
the identity it was generated for. -/
theorem decodedUserID_generateToken (u : Int) (ty : TokenType) (d t0 nw : Int)
    (secret : String) (h1 : t0 ≤ nw) (h2 : nw < t0 + d) :
    decodedUserID (generateToken u ty d t0 secret) secret nw = some u := by
  unfold decodedUserID
  rw [validateToken_generateToken u ty d t0 nw secret h1 h2]

/-- Helper: one refill step keeps the token count inside `[0, C]`. -/
theorem refillBucket_bounds (C R : ℚ) (now : Int) (stored : Option Bucket)
    (hC : 0 ≤ C) (hR : 0 ≤ R)
    (hst : ∀ b, stored = some b → 0 ≤ b.tokens ∧ b.tokens ≤ C) :
    0 ≤ (refillBucket C R now stored).tokens ∧
      (refillBucket C R now stored).tokens ≤ C := by
  cases stored with
  | none => simp [refillBucket, hC]
  | some b =>
    obtain ⟨hb0, hbC⟩ := hst b rfl
    simp only [refillBucket]
    by_cases hd : 0 < now - b.lastRefill
    · rw [if_pos hd]
      have hdq : (0 : ℚ) ≤ ((now - b.lastRefill : Int) : ℚ) := by
        exact_mod_cast le_of_lt hd
      constructor
      · exact le_min hC (by nlinarith)
      · exact min_le_left _ _
    · rw [if_neg hd]
      exact ⟨hb0, hbC⟩

/-! ## Claims -/

/-- C1: the claim says `GetTask` answers Forbidden whenever the task's
owner differs from the authenticated caller and returns the body only to
the owner.  The handler embedded from `controller.go` lines 83-106 never
reads the caller identity: caller 1 requesting task 123, which is owned by
user 2, receives the full task body and no Forbidden response.  The
repository's own tests (`TestGetTask_Forbidden_OtherUserTask`,
`TestTask_Ownership`) demand 403 at this input, so the code contradicts
its own test suite. -/
theorem c1_getTask_ignores_ownership :
    getTaskHandler (some 1) "123" none [taskOwnedBy2] = .okTask taskOwnedBy2 ∧
    taskOwnedBy2.userID ≠ 1 := by
  decide

/-- C2 (counterexample): with the insert transaction committing and the
broker publish failing, `CreateTask` leaves a committed PENDING row and no
message on the broker — refuting both the publish-before-commit ordering
and the "every committed PENDING row has a queued message" consequence. -/
theorem c2_pending_row_without_message :
    (serviceCreateTask ⟨true, false⟩ true 42 [] createReq).rows =
      [{ createReq with id := 42 }] ∧
    ({ createReq with id := 42 } : Task).status = "PENDING" ∧
    (serviceCreateTask ⟨true, false⟩ true 42 [] createReq).published = none ∧
    (serviceCreateTask ⟨true, false⟩ true 42 [] createReq).err =
      some .publishError := by
  decide

/-- C2 (amended): in `CreateTask` the insert transaction commits before
any broker interaction; when both channel creation and publish succeed the
message is enqueued and no error returned, while a channel or publish
failure returns an error yet leaves the already-committed PENDING row and
no enqueued message. -/
theorem c2_commit_precedes_publish (env : BrokerEnv) (insertOk : Bool) (newID : Int)
    (rows : List Task) (t : Task)
    (hvalid : ¬(t.userID = 0 ∨ t.taskType = "")) (hins : insertOk = true) :
    (serviceCreateTask env insertOk newID rows t).rows =
      rows ++ [{ t with id := newID }] ∧
    (env.channelOk = true → env.publishOk = true →
      (serviceCreateTask env insertOk newID rows t).published =
        some ⟨newID, t.userID, t.taskType⟩ ∧
      (serviceCreateTask env insertOk newID rows t).err = none) ∧
    (env.channelOk = false ∨ env.publishOk = false →
      (serviceCreateTask env insertOk newID rows t).published = none ∧
      (serviceCreateTask env insertOk newID rows t).err ≠ none) := by
  subst hins
  rcases env with ⟨co, po⟩
  cases co <;> cases po <;> simp [serviceCreateTask, hvalid]

/-- C2 witness: concrete successful call, hypotheses discharged. -/
theorem c2_commit_precedes_publish_witness :
    (serviceCreateTask ⟨true, true⟩ true 42 [] createReq).rows =
      [{ createReq with id := 42 }] ∧
    (serviceCreateTask ⟨true, true⟩ true 42 [] createReq).published =
      some ⟨42, 1, "send_email"⟩ := by
  have h := c2_commit_precedes_publish ⟨true, true⟩ true 42 [] createReq (by decide) rfl
  exact ⟨h.1, (h.2.1 rfl rfl).1⟩

/-- C3 (counterexample): `MarkProcessing` carries no status guard, so a
claim against a terminal SUCCESS row rewrites it to PROCESSING — refuting
the no-regress claim. -/
theorem c3_terminal_row_regressed :
    taskOwnedBy2.status = "SUCCESS" ∧
    markProcessing [taskOwnedBy2] 123 =
      [{ taskOwnedBy2 with status := "PROCESSING" }] := by
  decide

/-- C3 (amended): `MarkProcessing` sets the matched row's status to
PROCESSING unconditionally — including when the row is already terminal —
and leaves rows with other ids unchanged; terminal rows are not protected
against regress. -/
theorem c3_markProcessing_unconditional (rows : List Task) (id : Int) (t : Task)
    (ht : t ∈ rows) (hid : t.id = id) :
    { t with status := "PROCESSING" } ∈ markProcessing rows id ∧
    ∀ u ∈ rows, u.id ≠ id → u ∈ markProcessing rows id := by
  constructor
  · exact mem_map_update_of_mem (fun v => { v with status := "PROCESSING" }) ht hid
  · intro u hu hne
    have := List.mem_map_of_mem
      (f := fun v => if v.id = id then { v with status := "PROCESSING" } else v) hu
    simpa [markProcessing, if_neg hne] using this

/-- C3 witness: the amended statement applied to a SUCCESS row. -/
theorem c3_markProcessing_unconditional_witness :
    { taskOwnedBy2 with status := "PROCESSING" } ∈ markProcessing [taskOwnedBy2] 123 := by
  exact (c3_markProcessing_unconditional [taskOwnedBy2] 123 taskOwnedBy2
    (List.mem_singleton_self taskOwnedBy2) rfl).1

/-- C4: when the finalize transaction tx₂ fails, a delivery carrying
retry count `k ≥ 3` drives the row to FAILED "max retries reached" (via
tx₃) and is negative-acked without requeue, while `k < 3` republishes the
same body with `x-retry-count = k+1` and acks the current delivery. -/
theorem c4_finalize_failure_retry_policy (env : WorkerEnv) (rows : List Task)
    (msg : Delivery) (payload : TaskPayload)
    (hbody : decodeBody msg.body = some payload)
    (h1 : env.tx1Ok = true) (h2 : env.tx2Ok = false) :
    (3 ≤ parseRetryCount msg.headers → env.tx3Ok = true →
      processDelivery env rows msg =
        ⟨markFailed (markProcessing rows payload.id) payload.id "max retries reached",
         .nackDrop, none, true⟩) ∧
    (parseRetryCount msg.headers < 3 → env.publishOk = true →
      processDelivery env rows msg =
        ⟨markProcessing rows payload.id, .ack,
         some ⟨msg.body, republishHeaders msg.headers (parseRetryCount msg.headers + 1),
               msg.routingKey, msg.contentType⟩, true⟩) := by
  constructor
  · intro hk h3
    simp [processDelivery, hbody, h1, h2, h3, hk]
  · intro hk hp
    have hk' : ¬ (3 ≤ parseRetryCount msg.headers) := by omega
    simp [processDelivery, hbody, h1, h2, hp, hk']

/-- C4 witness: a retry-count-3 delivery against an empty store with tx₂
failing and tx₃ committing. -/
theorem c4_finalize_failure_retry_policy_witness :
    processDelivery ⟨true, false, true, true⟩ [] deliveryRetry3 =
      ⟨markFailed (markProcessing [] 5) 5 "max retries reached", .nackDrop, none, true⟩ := by
  exact (c4_finalize_failure_retry_policy ⟨true, false, true, true⟩ [] deliveryRetry3
    ⟨5, 1, "send_email"⟩ rfl rfl rfl).1 (by decide) rfl

/-- C5: the claim says the list-own-tasks operation is scoped to the token
identity with no parameter selecting another owner.  The handler embedded
from `controller.go` lines 109-126 is registered at
`/users/:user_id/tasks` and lists whatever identity the URL parameter
names: caller 1 asking for user 2's tasks receives them.  The repository's
own tests register the route without the parameter and expect JWT scoping,
so the code contradicts its own test suite. -/
theorem c5_list_scoped_by_url_param :
    getTasksByUserHandler (some 1) "2" none [pendingTaskOf2] =
      .okTasks [pendingTaskOf2] 1 ∧
    pendingTaskOf2.userID ≠ 1 := by
  decide

/-- C6: one evaluation of the Lua token bucket initialises an absent
bucket to `C`, refills by `delta · R` clamped at `C`, removes exactly one
token when at least one is available and none otherwise, and preserves
`0 ≤ tokens ≤ C`. -/
theorem c6_token_bucket (C R : ℚ) (now : Int) (stored : Option Bucket)
    (hC : 0 ≤ C) (hR : 0 ≤ R)
    (hst : ∀ b, stored = some b → 0 ≤ b.tokens ∧ b.tokens ≤ C) :
    (0 ≤ (rateLimiterEval C R now stored).1.tokens ∧
      (rateLimiterEval C R now stored).1.tokens ≤ C) ∧
    (refillBucket C R now none).tokens = C ∧
    ((rateLimiterEval C R now stored).2 = true ↔
      1 ≤ (refillBucket C R now stored).tokens) ∧
    ((rateLimiterEval C R now stored).2 = true →
      (rateLimiterEval C R now stored).1.tokens =
        (refillBucket C R now stored).tokens - 1) ∧
    ((rateLimiterEval C R now stored).2 = false →
      (rateLimiterEval C R now stored).1.tokens =
        (refillBucket C R now stored).tokens) ∧
    (∀ b, stored = some b → 0 < now - b.lastRefill →
      (refillBucket C R now stored).tokens =
        min C (b.tokens + ((now - b.lastRefill : Int) : ℚ) * R)) := by
  obtain ⟨hlo, hhi⟩ := refillBucket_bounds C R now stored hC hR hst
  have hrefill : ∀ b, stored = some b → 0 < now - b.lastRefill →
      (refillBucket C R now stored).tokens =
        min C (b.tokens + ((now - b.lastRefill : Int) : ℚ) * R) := by
    intro b hb hd
    subst hb
    simp only [refillBucket]
    rw [if_pos hd]
  by_cases h1 : 1 ≤ (refillBucket C R now stored).tokens
  · have he : rateLimiterEval C R now stored =
        (⟨(refillBucket C R now stored).tokens - 1,
          (refillBucket C R now stored).lastRefill⟩, true) := by
      simp only [rateLimiterEval]
      rw [if_pos h1]
    refine ⟨?_, by simp [refillBucket], ?_, ?_, ?_, hrefill⟩
    · rw [he]
      exact ⟨by simp; linarith, by simp; linarith⟩
    · rw [he]
      simp [h1]
    · intro _
      rw [he]
    · intro hfalse
      rw [he] at hfalse
      cases hfalse
  · have he : rateLimiterEval C R now stored = (refillBucket C R now stored, false) := by
      simp only [rateLimiterEval]
      rw [if_neg h1]
    refine ⟨?_, by simp [refillBucket], ?_, ?_, ?_, hrefill⟩
    · rw [he]
      exact ⟨hlo, hhi⟩
    · rw [he]
      simp [h1]
    · intro htrue
      rw [he] at htrue
      cases htrue
    · intro _
      rw [he]

/-- C6 witness: moderate preset (C = 20, R = 10) against a stored bucket
holding 3 tokens. -/
theorem c6_token_bucket_witness :
    0 ≤ (rateLimiterEval 20 10 5 (some ⟨3, 4⟩)).1.tokens ∧
    (rateLimiterEval 20 10 5 (some ⟨3, 4⟩)).1.tokens ≤ 20 := by
  exact (c6_token_bucket 20 10 5 (some ⟨3, 4⟩) (by norm_num) (by norm_num)
    (fun b hb => by
      cases hb
      exact ⟨(by norm_num : (0 : ℚ) ≤ 3), (by norm_num : (3 : ℚ) ≤ 20)⟩)).1

/-- C7: when the cache-side script evaluation errors, the middleware logs
the degradation and lets the request proceed (fail-open) instead of
rejecting it. -/
theorem c7_failure_open (uid : Int) (e : String) :
    rateLimiterMiddleware (some uid) (Except.error e) = ⟨true, none, true⟩ := rfl

/-- C8: a valid refresh token for identity u exchanges into a pair whose
access and refresh tokens both decode to u under the shared secret, and
composing a second refresh from the returned refresh token again yields a
pair decoding to u. -/
theorem c8_refresh_rotation (t : SignedToken) (secret : String) (now1 now2 : Int)
    (hs : t.signedWith = secret) (hty : t.claims.type = .refresh)
    (hexp : now1 < t.claims.expiresAt) (hnbf : t.claims.notBefore ≤ now1)
    (h12 : now1 ≤ now2) (h2exp : now2 < now1 + 7 * 24 * 3600) :
    refreshTokenPair t secret now1 =
      .ok (generateTokenPair t.claims.userID secret now1) ∧
    decodedUserID (generateTokenPair t.claims.userID secret now1).accessToken secret now1 =
      some t.claims.userID ∧
    decodedUserID (generateTokenPair t.claims.userID secret now1).refreshToken secret now1 =
      some t.claims.userID ∧
    refreshTokenPair (generateTokenPair t.claims.userID secret now1).refreshToken secret now2 =
      .ok (generateTokenPair t.claims.userID secret now2) ∧
    decodedUserID (generateTokenPair t.claims.userID secret now2).accessToken secret now2 =
      some t.claims.userID ∧
    decodedUserID (generateTokenPair t.claims.userID secret now2).refreshToken secret now2 =
      some t.claims.userID := by
  have hval : validateToken t secret now1 = .ok t.claims := by
    unfold validateToken
    rw [if_neg (by simp [hs]), if_neg (by omega), if_neg (by omega)]
  refine ⟨?_, ?_, ?_, ?_, ?_, ?_⟩
  · unfold refreshTokenPair
    rw [hval]
    simp [hty]
  · exact decodedUserID_generateToken _ _ _ _ _ _ (le_refl now1) (by omega)
  · exact decodedUserID_generateToken _ _ _ _ _ _ (le_refl now1) (by omega)
  · show refreshTokenPair (generateToken t.claims.userID .refresh (7 * 24 * 3600) now1 secret)
        secret now2 = .ok (generateTokenPair t.claims.userID secret now2)
    unfold refreshTokenPair
    rw [validateToken_generateToken t.claims.userID .refresh (7 * 24 * 3600) now1 now2
      secret h12 (by omega)]
    simp
  · exact decodedUserID_generateToken _ _ _ _ _ _ (le_refl now2) (by omega)
  · exact decodedUserID_generateToken _ _ _ _ _ _ (le_refl now2) (by omega)

/-- C8 witness: identity 7's refresh token issued at time 0, refreshed at
times 10 and 100. -/
theorem c8_refresh_rotation_witness :
    refreshTokenPair c8RefreshTok c8Secret 10 = .ok (generateTokenPair 7 c8Secret 10) ∧
    decodedUserID (generateTokenPair 7 c8Secret 10).accessToken c8Secret 10 = some 7 ∧
    refreshTokenPair (generateTokenPair 7 c8Secret 10).refreshToken c8Secret 100 =
      .ok (generateTokenPair 7 c8Secret 100) := by
  have h := c8_refresh_rotation c8RefreshTok c8Secret 10 100 rfl rfl (by decide) (by decide)
    (by decide) (by decide)
  exact ⟨h.1, h.2.1, h.2.2.2.1⟩

/-- C9: a delivery with no headers, with headers lacking `x-retry-count`,
or with an `x-retry-count` value that does not type-assert to `int32`, is
processed with retry count 0 — first-attempt semantics (this is the exact
computation `StartWorker` performs at lines 79-84). -/
theorem c9_retry_count_defaults_to_zero (h : List (String × FieldValue)) :
    parseRetryCount none = 0 ∧
    (headerLookup h "x-retry-count" = none → parseRetryCount (some h) = 0) ∧
    (∀ v, headerLookup h "x-retry-count" = some v →
      (∀ n, v ≠ FieldValue.int32 n) → parseRetryCount (some h) = 0) := by
  refine ⟨rfl, ?_, ?_⟩
  · intro hnone
    simp [parseRetryCount, hnone]
  · intro v hv hnot
    cases v with
    | int32 n => exact absurd rfl (hnot n)
    | int64 n => simp [parseRetryCount, hv]
    | str s => simp [parseRetryCount, hv]
    | boolean b => simp [parseRetryCount, hv]

/-- C9 witness: a string-typed retry header and a header table without the
key both yield retry count 0. -/
theorem c9_retry_count_defaults_to_zero_witness :
    parseRetryCount (some [("x-retry-count", FieldValue.str "3")]) = 0 ∧
    parseRetryCount (some [("content-type", FieldValue.str "application/json")]) = 0 := by
  constructor
  · exact (c9_retry_count_defaults_to_zero [("x-retry-count", .str "3")]).2.2
      (.str "3") rfl (fun n hn => FieldValue.noConfusion hn)
  · exact (c9_retry_count_defaults_to_zero
      [("content-type", .str "application/json")]).2.1 rfl

/-- C10: a well-formed delivery whose task id matches no row runs the
claim and finalize updates as zero-row no-ops (row counts are never
checked), still executes the handler, republishes nothing, creates no
row, and acknowledges the delivery. -/
theorem c10_unknown_task_id_acked (env : WorkerEnv) (rows : List Task)
    (msg : Delivery) (payload : TaskPayload)
    (hbody : decodeBody msg.body = some payload)
    (habsent : ∀ t ∈ rows, t.id ≠ payload.id)
    (h1 : env.tx1Ok = true) (h2 : env.tx2Ok = true) :
    processDelivery env rows msg = ⟨rows, .ack, none, true⟩ := by
  have hmp : markProcessing rows payload.id = rows :=
    map_update_eq_of_absent rows payload.id _ habsent
  have hms : markSuccess rows payload.id "result.txt" = rows :=
    map_update_eq_of_absent rows payload.id _ habsent
  have hmf : ∀ e, markFailed rows payload.id e = rows := fun e =>
    map_update_eq_of_absent rows payload.id _ habsent
  cases he : handleTask payload with
  | none => simp [processDelivery, hbody, h1, h2, he, hmp, hms]
  | some e => simp [processDelivery, hbody, h1, h2, he, hmp, hmf e]

/-- C10 witness: a fresh delivery for task 5 against an empty store. -/
theorem c10_unknown_task_id_acked_witness :
    processDelivery ⟨true, true, true, true⟩ [] deliveryFresh = ⟨[], .ack, none, true⟩ := by
  exact c10_unknown_task_id_acked ⟨true, true, true, true⟩ [] deliveryFresh
    ⟨5, 1, "send_email"⟩ rfl (by simp) rfl rfl

end TaskOrch
